import Mathlib

/-!
Shallow embedding of the pipeline logic of `nse_dashboard.py`: the mover
ranking (`get_top_movers`), the breakout-candidate filters (`gf`, `lf`),
the trade-plan generator (`generate_trade_plan`) and the quote fetchers
(`get_nifty50_members`, `get_indices_snapshot`, `get_option_chain_index`).
Python floats are embedded as exact rationals; fallible Python operations
(such as `float()` on a non-numeric value, or attribute access on a
non-dict) are embedded as `Except`-valued functions, and a `try/except`
block becomes a total function that maps the error case to the fallback
value.  Streamlit display calls (`st.error`, `st.warning`, `st.dataframe`)
are pure presentation side effects and are dropped.
-/

namespace NseDashboard

/-- A cell value as it appears in a fetched row: either a numeric value, or
a value on which Python `float()` raises (for example `None` or a
non-numeric string; numeric strings are taken to be already normalised to
`num` by the upstream `pd.to_numeric` pass). -/
inductive Cell where
  | num (q : ℚ)
  | nonNum
deriving DecidableEq

/-- Python `float()` on a cell: succeeds exactly on numeric values and
raises (here: returns `Except.error`) otherwise. -/
def pyFloat : Cell → Except Unit ℚ
  | .num q => .ok q
  | .nonNum => .error ()


/-- Round a rational to the nearest integer with ties going to the even
integer, which is the rounding mode of Python `round()`. -/
def roundHalfEven (q : ℚ) : ℤ :=
  let f : ℤ := ⌊q⌋
  let r : ℚ := q - f
  if r < 1/2 then f
  else if 1/2 < r then f + 1
  else if f % 2 = 0 then f else f + 1

/-- Python `round(x, 2)`: rounding to two decimal places, ties to even. -/
def pyRound2 (q : ℚ) : ℚ := (roundHalfEven (q * 100) : ℚ) / 100

/-- One row of the NIFTY 50 members table (one instrument), restricted to
the fields the pipeline reads.  A field whose key is absent from the row is
`none`.  `pChange` is the percent change as it stands after the
`pd.to_numeric(..., errors=coerce)` normalisation, with `none` standing for
a missing or NaN value (dropped by `dropna`).  `totalTradedVolume` is the
traded-volume column carried by the NSE payload; the pipeline never reads
it. -/
structure Row where
  symbol : Option String
  name : Option String
  lastPrice : Option Cell
  underlying : Option Cell
  dayLow : Option Cell
  dayHigh : Option Cell
  pChange : Option ℚ
  totalTradedVolume : Option ℚ
deriving DecidableEq

/-- A row with every key absent; concrete rows are built from it by
structure update. -/
def blankRow : Row := ⟨none, none, none, none, none, none, none, none⟩

/-- The pChange sort key of a row, read after `dropna` has removed the
`none` rows (so the default value is never consulted on the sorted data). -/
def pct (r : Row) : ℚ := r.pChange.getD 0

/-- Embedding of `get_top_movers(n)`: if the members table is empty return
two empty tables, otherwise drop the rows with missing `pChange` and return
the first `n` rows of the table sorted by `pChange` descending (gainers)
and ascending (losers). -/
def get_top_movers (n : ℕ) (df : List Row) : List Row × List Row :=
  if df.isEmpty then ([], [])
  else
    let kept := df.filter (fun r => r.pChange.isSome)
    let gainers := (kept.mergeSort (fun a b => decide (pct b ≤ pct a))).take n
    let losers := (kept.mergeSort (fun a b => decide (pct a ≤ pct b))).take n
    (gainers, losers)

/-- The keep-predicate of the pandas filter
`gainers_df[gainers_df["pChange"] >= min_change]` (the Bullish Breakout
Candidates filter).  In pandas a comparison against NaN is `False`, so a
row with a missing `pChange` is dropped. -/
def gfKeep (min_change : ℚ) (r : Row) : Bool :=
  match r.pChange with
  | some q => decide (min_change ≤ q)
  | none => false

/-- The keep-predicate of the pandas filter
`losers_df[losers_df["pChange"] <= -min_change]` (the Bearish Breakdown
Candidates filter). -/
def lfKeep (min_change : ℚ) (r : Row) : Bool :=
  match r.pChange with
  | some q => decide (q ≤ -min_change)
  | none => false

/-- Embedding of `gf = gainers_df[gainers_df["pChange"] >= min_change]`. -/
def gf (min_change : ℚ) (gainers_df : List Row) : List Row :=
  gainers_df.filter (gfKeep min_change)

/-- Embedding of `lf = losers_df[losers_df["pChange"] <= -min_change]`. -/
def lf (min_change : ℚ) (losers_df : List Row) : List Row :=
  losers_df.filter (lfKeep min_change)

/-- Trade direction argument of `generate_trade_plan`. -/
inductive Direction where
  | long
  | short
deriving DecidableEq

/-- One emitted trade plan, with the exact fields of the dict appended to
`plans` in `generate_trade_plan`. -/
structure TradePlan where
  symbol : String
  entry : ℚ
  stoploss : ℚ
  target : ℚ
  risk_reward : ℚ
deriving DecidableEq

/-- Embedding of `row.get("lastPrice", row.get("underlying", 0))`. -/
def entryCell (row : Row) : Cell :=
  row.lastPrice.getD (row.underlying.getD (.num 0))

/-- Embedding of the stop lookup of `generate_trade_plan`:
`row.get("dayLow", entry * 0.995)` for a long plan and
`row.get("dayHigh", entry * 1.005)` for a short plan. -/
def stopCell (direction : Direction) (row : Row) (entry : ℚ) : Cell :=
  match direction with
  | .long => row.dayLow.getD (.num (entry * 0.995))
  | .short => row.dayHigh.getD (.num (entry * 1.005))

/-- Body of one iteration of the row loop of `generate_trade_plan`: parse
the entry and the stop with `float()` (either may raise), compute the
target from the unrounded values, and emit the plan dict with the monetary
fields rounded to two decimals.  An error value is a raised exception,
caught by the `except: continue` of the loop. -/
def planRow (direction : Direction) (rr_ratio : ℚ) (row : Row) :
    Except Unit TradePlan := do
  let entry ← pyFloat (entryCell row)
  let stop ← pyFloat (stopCell direction row entry)
  let target : ℚ :=
    match direction with
    | .long => entry + (entry - stop) * rr_ratio
    | .short => entry - (stop - entry) * rr_ratio
  .ok { symbol := row.symbol.getD (row.name.getD "")
        entry := pyRound2 entry
        stoploss := pyRound2 stop
        target := pyRound2 target
        risk_reward := rr_ratio }

/-- Embedding of `generate_trade_plan(df, direction, rr_ratio)`: process
the rows in order, skipping (via `except: continue`) every row whose
processing raises. -/
def generate_trade_plan (df : List Row) (direction : Direction)
    (rr_ratio : ℚ) : List TradePlan :=
  df.filterMap (fun row => (planRow direction rr_ratio row).toOption)

/-- The risk of an emitted plan as the spec defines it: `entry - stop` for
a long plan and `stop - entry` for a short plan. -/
def risk (direction : Direction) (p : TradePlan) : ℚ :=
  match direction with
  | .long => p.entry - p.stoploss
  | .short => p.stoploss - p.entry

/-- A parsed JSON value, the result of `resp.json()` in `fetch_json`. -/
inductive Json where
  | null
  | bool (b : Bool)
  | num (q : ℚ)
  | str (s : String)
  | arr (xs : List Json)
  | obj (fields : List (String × Json))

/-- Python `data.get(key, default)`: on a dict, the value stored under the
key (or the default when the key is absent); on anything else the attribute
access raises `AttributeError`. -/
def jsonGet (j : Json) (key : String) (dflt : Json) : Except String Json :=
  match j with
  | .obj fields => .ok ((fields.lookup key).getD dflt)
  | _ => .error "AttributeError"

/-- Python `data.items()`: the field list of a dict; on anything else the
attribute access raises `AttributeError`. -/
def jsonItems (j : Json) : Except String (List (String × Json)) :=
  match j with
  | .obj fields => .ok fields
  | _ => .error "AttributeError"

/-- Python `for rec in payload`: iterating a JSON array yields its
elements; the payload shapes this pipeline iterates are arrays, and any
other shape is treated as the iteration raising. -/
def asList (j : Json) : Except String (List Json) :=
  match j with
  | .arr xs => .ok xs
  | _ => .error "TypeError"

/-- Model of `pd.DataFrame(payload)` for the record-list payloads of the
NSE endpoints: a JSON array becomes the list of its rows and a scalar
payload makes the constructor raise. -/
def toDataFrame (j : Json) : Except String (List Json) :=
  match j with
  | .arr xs => .ok xs
  | _ => .error "ValueError"

/-- Model of `pd.to_numeric(column, errors=coerce)` on one cell: a numeric
value is kept and any other value is coerced to NaN (embedded as `null`);
the coercion never raises. -/
def toNumericCoerce (j : Json) : Json :=
  match j with
  | .num q => .num q
  | _ => .null

/-- One step of the column-normalisation loop of the fetchers: coerce the
value of a field whose name is one of the listed numeric columns. -/
def coerceField (cols : List String) (kv : String × Json) : String × Json :=
  if kv.1 ∈ cols then (kv.1, toNumericCoerce kv.2) else kv

/-- The column-normalisation loop of `get_nifty50_members` and
`get_indices_snapshot`: apply `pd.to_numeric(..., errors=coerce)` to every
listed column that is present; a total operation. -/
def normalizeCols (cols : List String) (rows : List Json) : List Json :=
  rows.map fun r =>
    match r with
    | .obj fields => .obj (fields.map (coerceField cols))
    | other => other

/-- Body of the `try` block of `get_nifty50_members`, as a function of the
outcome of `fetch_json` (an `error` outcome is a raised network or HTTP
exception). -/
def nifty50Body (fetched : Except String Json) : Except String (List Json) := do
  let data ← fetched
  let payload ← jsonGet data "data" (.arr [])
  let rows ← toDataFrame payload
  .ok (normalizeCols ["lastPrice", "pChange", "dayHigh", "dayLow",
    "totalTradedValue"] rows)

/-- Embedding of `get_nifty50_members`: every failure of the body is caught
and turned into an empty DataFrame (the `st.error` display call is a
presentation side effect and is dropped).  The return type being a plain
list records that the function itself never raises. -/
def get_nifty50_members (fetched : Except String Json) : List Json :=
  match nifty50Body fetched with
  | .ok df => df
  | .error _ => []

/-- Body of the `try` block of `get_indices_snapshot`. -/
def indicesBody (fetched : Except String Json) : Except String (List Json) := do
  let data ← fetched
  let payload ← jsonGet data "data" (.arr [])
  let rows ← toDataFrame payload
  .ok (normalizeCols ["last", "change", "pChange", "points"] rows)

/-- Embedding of `get_indices_snapshot`: every failure of the body is
caught and turned into an empty DataFrame. -/
def get_indices_snapshot (fetched : Except String Json) : List Json :=
  match indicesBody fetched with
  | .ok df => df
  | .error _ => []

/-- One iteration of the option-chain row loop: read the strike, the CE
dict and the PE dict of one record (attribute access on a non-dict record
raises) and merge them into one row with CE_/PE_ prefixed keys. -/
def optionChainRow (underlying : Json) (rec : Json) : Except String Json := do
  let strike ← jsonGet rec "strikePrice" .null
  let ce ← jsonGet rec "CE" (.obj [])
  let pe ← jsonGet rec "PE" (.obj [])
  let ceFields ← jsonItems ce
  let peFields ← jsonItems pe
  .ok (.obj ([("strike", strike), ("underlying", underlying)] ++
    ceFields.map (fun kv => ("CE_" ++ kv.1, kv.2)) ++
    peFields.map (fun kv => ("PE_" ++ kv.1, kv.2))))

/-- Body of the `try` block of `get_option_chain_index`, as a function of
the outcome of `fetch_json`. -/
def optionChainBody (fetched : Except String Json) :
    Except String (List Json) := do
  let data ← fetched
  let records ← jsonGet data "records" (.obj [])
  let underlying ← jsonGet records "underlyingValue" .null
  let payload ← jsonGet records "data" (.arr [])
  let recs ← asList payload
  recs.mapM (optionChainRow underlying)

/-- Embedding of `get_option_chain_index`: every failure of the body is
caught and turned into an empty DataFrame (the `st.warning` display call is
a presentation side effect and is dropped). -/
def get_option_chain_index (fetched : Except String Json) : List Json :=
  match optionChainBody fetched with
  | .ok df => df
  | .error _ => []

/-- One OHLCV bar of an instrument series, restricted to the fields the
spec uses for breakout detection. -/
structure Bar where
  close : ℚ
  volume : ℚ
deriving DecidableEq

/-- Modelled from the spec: the Breakout Detector algorithm of spec section
4.4 is not implemented anywhere in `nse_dashboard.py` (the code cited as
the Breakout Detector is the plain `pChange >= min_change` filter), so the
lookback-window detector is transcribed here from the words of the spec:
take the last `lookback_days` bars excluding the most recent bar, compute
`recent_high = max(close)` and `avg_volume = mean(volume)` over that
window, and fire iff the latest close strictly exceeds
`recent_high * (1 + breakout_pct/100)` and the latest volume strictly
exceeds `avg_volume * volume_multiplier`; with fewer than `lookback_days`
prior bars the result is `false`. -/
def isBreakoutSpec (bars : List Bar) (lookback_days : ℕ)
    (breakout_pct volume_multiplier : ℚ) : Bool :=
  match bars.getLast? with
  | none => false
  | some latest =>
    let prior := bars.dropLast
    if prior.length < lookback_days then false
    else
      let window := prior.drop (prior.length - lookback_days)
      let recent_high := ((window.map Bar.close).max?).getD 0
      let avg_volume := (window.map Bar.volume).sum / (window.length : ℚ)
      decide (recent_high * (1 + breakout_pct / 100) < latest.close ∧
        avg_volume * volume_multiplier < latest.volume)

/-! Concrete instruments used as inputs of witnesses and counterexamples. -/

/-- An instrument up 5 percent on the day, with zero traded volume. -/
def c1Row : Row :=
  { blankRow with
      symbol := some "AAA", pChange := some 5, totalTradedVolume := some 0 }

/-- The backing series of `c1Row`: one prior bar (close 100, volume 10) and
the latest bar (close 105, volume 0), consistent with a 5 percent rise. -/
def c1Bars : List Bar := [⟨100, 10⟩, ⟨105, 0⟩]

/-- An instrument up 5 percent with zero traded volume. -/
def c2LowVol : Row :=
  { blankRow with
      symbol := some "LOWVOL", pChange := some 5,
      totalTradedVolume := some 0 }

/-- An instrument down 5 percent with very high traded volume. -/
def c2NegMover : Row :=
  { blankRow with
      symbol := some "NEG", pChange := some (-5),
      totalTradedVolume := some 999999 }

/-- A long-side row whose day low (105) lies above its last price (100), so
the computed risk is negative. -/
def c3Row : Row :=
  { blankRow with
      symbol := some "BAD", lastPrice := some (.num 100),
      dayLow := some (.num 105) }

/-- The plan `generate_trade_plan` emits for `c3Row` (long, rr 2). -/
def c3Plan : TradePlan := ⟨"BAD", 100, 105, 90, 2⟩

/-- The long example row of the spec: entry 100 with day low 98. -/
def c5ExampleRow : Row :=
  { blankRow with lastPrice := some (.num 100), dayLow := some (.num 98) }

/-- A long-side row with entry 100 and no day low. -/
def c5NoDayLow : Row := { blankRow with lastPrice := some (.num 100) }

/-- The short example row of the spec: entry 100 with day high 102. -/
def c6ExampleRow : Row :=
  { blankRow with lastPrice := some (.num 100), dayHigh := some (.num 102) }

/-- A second short-side row: entry 200 with day high 202. -/
def c6Row2 : Row :=
  { blankRow with lastPrice := some (.num 200), dayHigh := some (.num 202) }

/-- A row whose last price is a value `float()` rejects, so its processing
raises. -/
def c8Bad : Row :=
  { blankRow with symbol := some "BAD", lastPrice := some .nonNum }

/-- A well-formed long-side row (entry 10, day low 9). -/
def c8Good1 : Row :=
  { blankRow with
      symbol := some "G1", lastPrice := some (.num 10),
      dayLow := some (.num 9) }

/-- A well-formed long-side row (entry 20, day low 18). -/
def c8Good2 : Row :=
  { blankRow with
      symbol := some "G2", lastPrice := some (.num 20),
      dayLow := some (.num 18) }

/-- A long-side row (entry 100, day low 98) used with rr 0. -/
def c9Row : Row :=
  { blankRow with lastPrice := some (.num 100), dayLow := some (.num 98) }

/-- The plan `generate_trade_plan` emits for `c9Row` (long, rr 0). -/
def c9Plan : TradePlan := ⟨"", 100, 98, 100, 0⟩

/-- A row with entry 100 and neither day extreme present. -/
def c10Row : Row :=
  { blankRow with symbol := some "NODAY", lastPrice := some (.num 100) }

/-! Theorems settling the claims. -/

/-- Evaluation of `float()` on a numeric cell. -/
theorem pyFloat_num (q : ℚ) : pyFloat (.num q) = .ok q := rfl

/-- A sorted prefix stays pairwise ordered: the first `n` elements of a
merge-sorted list are pairwise related by the comparator. -/
theorem pairwise_take_mergeSort {α : Type _} {le : α → α → Bool}
    (htr : ∀ a b c, le a b = true → le b c = true → le a c = true)
    (hto : ∀ a b, le a b || le b a) (l : List α) (n : ℕ) :
    List.Pairwise (fun a b => le a b = true) ((l.mergeSort le).take n) :=
  List.Pairwise.sublist (List.take_sublist n _)
    (List.sorted_mergeSort htr hto l)

/-- Membership in a sorted prefix comes from the original list. -/
theorem mem_of_mem_take_mergeSort {α : Type _} {le : α → α → Bool}
    {l : List α} {n : ℕ} {a : α} (h : a ∈ (l.mergeSort le).take n) :
    a ∈ l :=
  (List.mergeSort_perm l le).subset (List.mem_of_mem_take h)

/-- Every element of a sorted prefix is related to every element of the
original list that the prefix leaves out. -/
theorem top_of_take_mergeSort {α : Type _} {le : α → α → Bool}
    (htr : ∀ a b c, le a b = true → le b c = true → le a c = true)
    (hto : ∀ a b, le a b || le b a) {l : List α} {n : ℕ} {a b : α}
    (ha : a ∈ (l.mergeSort le).take n) (hb : b ∈ l)
    (hnb : b ∉ (l.mergeSort le).take n) : le a b = true := by
  have hbm : b ∈ l.mergeSort le := (List.mergeSort_perm l le).mem_iff.mpr hb
  have hsplit : (l.mergeSort le).take n ++ (l.mergeSort le).drop n =
      l.mergeSort le := List.take_append_drop n _
  have hpw : List.Pairwise (fun a b => le a b = true)
      ((l.mergeSort le).take n ++ (l.mergeSort le).drop n) := by
    rw [hsplit]
    exact List.sorted_mergeSort htr hto l
  have hbd : b ∈ (l.mergeSort le).drop n := by
    rcases List.mem_append.mp (by rw [hsplit]; exact hbm) with hin | hin
    · exact absurd hin hnb
    · exact hin
  exact (List.pairwise_append.mp hpw).2.2 a ha b hbd

/-- Length of a sorted prefix. -/
theorem length_take_mergeSort {α : Type _} (le : α → α → Bool) (l : List α)
    (n : ℕ) : ((l.mergeSort le).take n).length = min n l.length := by
  rw [List.length_take, (List.mergeSort_perm l le).length_eq]

/-- The gainers view of `get_top_movers` in closed form. -/
theorem get_top_movers_fst (n : ℕ) (df : List Row) :
    (get_top_movers n df).1 = ((df.filter (fun r => r.pChange.isSome)).mergeSort
      (fun a b => decide (pct b ≤ pct a))).take n := by
  cases df with
  | nil => simp [get_top_movers]
  | cons r rs => rfl

/-- The losers view of `get_top_movers` in closed form. -/
theorem get_top_movers_snd (n : ℕ) (df : List Row) :
    (get_top_movers n df).2 = ((df.filter (fun r => r.pChange.isSome)).mergeSort
      (fun a b => decide (pct a ≤ pct b))).take n := by
  cases df with
  | nil => simp [get_top_movers]
  | cons r rs => rfl

/-- The descending comparator is transitive. -/
theorem descLe_trans : ∀ a b c : Row, decide (pct b ≤ pct a) = true →
    decide (pct c ≤ pct b) = true → decide (pct c ≤ pct a) = true := by
  intro a b c h1 h2
  simp only [decide_eq_true_eq] at h1 h2 ⊢
  exact le_trans h2 h1

/-- The descending comparator is total. -/
theorem descLe_total : ∀ a b : Row,
    (decide (pct b ≤ pct a) || decide (pct a ≤ pct b)) = true := by
  intro a b
  simp only [Bool.or_eq_true, decide_eq_true_eq]
  exact le_total (pct b) (pct a)

/-- The ascending comparator is transitive. -/
theorem ascLe_trans : ∀ a b c : Row, decide (pct a ≤ pct b) = true →
    decide (pct b ≤ pct c) = true → decide (pct a ≤ pct c) = true := by
  intro a b c h1 h2
  simp only [decide_eq_true_eq] at h1 h2 ⊢
  exact le_trans h1 h2

/-- The ascending comparator is total. -/
theorem ascLe_total : ∀ a b : Row,
    (decide (pct a ≤ pct b) || decide (pct b ≤ pct a)) = true := by
  intro a b
  simp only [Bool.or_eq_true, decide_eq_true_eq]
  exact le_total (pct a) (pct b)

/-- C4: for every outcome of `fetch_json`, each of the three quote fetchers
catches any failure of its body (network, parsing, or missing-field) and
reports it to the caller as an empty DataFrame; in particular a failed
`fetch_json` call yields an empty DataFrame from each fetcher.  The
fetchers are total functions into plain lists, so they never raise to
their caller. -/
theorem C4_fetchers_catch_failures (fetched : Except String Json)
    (e msg : String) :
    (nifty50Body fetched = .error e → get_nifty50_members fetched = []) ∧
    (indicesBody fetched = .error e → get_indices_snapshot fetched = []) ∧
    (optionChainBody fetched = .error e →
      get_option_chain_index fetched = []) ∧
    get_nifty50_members (.error msg) = [] ∧
    get_indices_snapshot (.error msg) = [] ∧
    get_option_chain_index (.error msg) = [] := by
  refine ⟨fun h => ?_, fun h => ?_, fun h => ?_, rfl, rfl, rfl⟩ <;>
    simp [get_nifty50_members, get_indices_snapshot, get_option_chain_index, h]

/-- C4 witness: a network failure of `fetch_json` makes
`get_nifty50_members` return the empty DataFrame. -/
theorem C4_witness : get_nifty50_members (.error "timeout") = [] :=
  (C4_fetchers_catch_failures (.error "timeout") "timeout" "timeout").1 rfl

/-- C1 counterexample: the code retains `c1Row` as a Bullish Breakout
Candidate because its `pChange` (5) is at least `min_change` (2), although
on its backing series the spec detector (lookback 3, breakout_pct 2,
volume_multiplier 1) reports no breakout: the series has a single prior
bar, fewer than the lookback, and the latest volume (0) fails the volume
gate, so the claimed equivalence with the lookback-window condition is
false for this instrument. -/
theorem C1_counterexample :
    gf 2 [c1Row] = [c1Row] ∧ isBreakoutSpec c1Bars 3 2 1 = false := by
  constructor
  · simp [gf, gfKeep, c1Row, blankRow]
    norm_num
  · rfl

/-- C1 (amended): a gainer row is retained by the Bullish Breakout
Candidates filter iff its `pChange` is present and at least `min_change`
(a non-strict comparison); the filter consults no lookback window, recent
high, or volume. -/
theorem C1_breakout_candidate_amended (min_change : ℚ) (df : List Row)
    (r : Row) :
    r ∈ gf min_change df ↔
      r ∈ df ∧ ∃ q, r.pChange = some q ∧ min_change ≤ q := by
  rw [gf, List.mem_filter]
  refine and_congr_right fun _ => ?_
  cases hr : r.pChange <;> simp [gfKeep, hr]

/-- C1 witness: the amended equivalence applied to `c1Row`, whose pChange
5 meets the threshold 2, shows the row retained. -/
theorem C1_witness : c1Row ∈ gf 2 [c1Row] :=
  (C1_breakout_candidate_amended 2 [c1Row] c1Row).mpr
    ⟨List.Mem.head _, 5, rfl, by norm_num⟩

/-- C2 counterexample: the row `c2LowVol` (up 5 percent, traded volume 0)
is retained by the gainer filter with `min_change = 2` although its volume
is below any positive `min_volume` threshold (here 1), and the row
`c2NegMover` (down 5 percent, huge volume) is dropped by the same filter
although `abs(pct_change) = 5 ≥ 2`; so retention is not the claimed
conjunction of an absolute-change test and a volume test. -/
theorem C2_counterexample :
    gf 2 [c2LowVol] = [c2LowVol] ∧ ¬ ((1 : ℚ) ≤ 0) ∧
    gf 2 [c2NegMover] = [] ∧ (2 : ℚ) ≤ |(-5 : ℚ)| := by
  refine ⟨?_, by norm_num, ?_, by rw [abs_neg]; norm_num⟩
  · simp [gf, gfKeep, c2LowVol, blankRow]
    norm_num
  · simp [gf, gfKeep, c2NegMover, blankRow]
    norm_num

/-- C2 (amended): in the filtering stage a gainer row is retained iff its
`pChange` is present and `pChange >= min_change`, and a loser row iff its
`pChange` is present and `pChange <= -min_change`; no volume threshold
exists, and changing the traded volume of a row cannot change its
retention. -/
theorem C2_mover_filter_amended (min_change : ℚ) (df : List Row) (r : Row)
    (v : Option ℚ) :
    (r ∈ gf min_change df ↔ r ∈ df ∧ gfKeep min_change r = true) ∧
    (r ∈ lf min_change df ↔ r ∈ df ∧ lfKeep min_change r = true) ∧
    (gfKeep min_change r = true ↔
      ∃ q, r.pChange = some q ∧ min_change ≤ q) ∧
    (lfKeep min_change r = true ↔
      ∃ q, r.pChange = some q ∧ q ≤ -min_change) ∧
    gfKeep min_change { r with totalTradedVolume := v } =
      gfKeep min_change r ∧
    lfKeep min_change { r with totalTradedVolume := v } =
      lfKeep min_change r := by
  refine ⟨List.mem_filter, List.mem_filter, ?_, ?_, rfl, rfl⟩ <;>
    cases hr : r.pChange <;> simp [gfKeep, lfKeep, hr]

/-- C2 witness: the amended characterisation applied to `c2NegMover`
(down 5 percent) shows it satisfies the loser-side retention predicate at
threshold 2. -/
theorem C2_witness : lfKeep 2 c2NegMover = true :=
  (C2_mover_filter_amended 2 [] c2NegMover none).2.2.2.1.mpr
    ⟨-5, rfl, by norm_num⟩

/-- C3 counterexample: on `c3Row` the computed risk is `100 - 105 = -5`,
not positive, yet `generate_trade_plan` still emits the plan (entry 100,
stop 105, target 90) instead of filtering the row out. -/
theorem C3_counterexample :
    generate_trade_plan [c3Row] .long 2 = [c3Plan] ∧ (100 : ℚ) - 105 ≤ 0 := by
  refine ⟨?_, by norm_num⟩
  simp [generate_trade_plan, planRow, entryCell, stopCell, pyFloat, c3Row,
    c3Plan, blankRow, Except.toOption, bind, Except.bind]
  norm_num [pyRound2, roundHalfEven]

/-- C3 (amended): a plan whose computed risk is not positive is still
emitted by `generate_trade_plan`; a row is only dropped when processing it
raises (an unparseable field), never because the stop lies on the wrong
side of the entry. -/
theorem C3_nonpositive_risk_still_emitted (dir : Direction) (rr : ℚ)
    (row : Row) (p : TradePlan) (h : planRow dir rr row = .ok p)
    (_hrisk : risk dir p ≤ 0) :
    generate_trade_plan [row] dir rr = [p] := by
  simp [generate_trade_plan, h, Except.toOption]

/-- C3 witness: the theorem applied to `c3Row`, whose emitted plan has risk
`100 - 105 = -5 ≤ 0`. -/
theorem C3_witness : generate_trade_plan [c3Row] .long 2 = [c3Plan] :=
  C3_nonpositive_risk_still_emitted .long 2 c3Row c3Plan
    (by
      simp [planRow, entryCell, stopCell, pyFloat, c3Row, blankRow, bind,
        Except.bind, c3Plan]
      norm_num [pyRound2, roundHalfEven])
    (by norm_num [risk, c3Plan])

/-- C5 counterexample: the Trade Plan Builder has no caller-supplied
stop-loss percentage; on a row with entry 100 and no day low (long, rr 2)
it emits stop 99.5 (the fixed 0.5 percent fallback), not the
`entry * (1 - stop_pct/100) = 98` that the claim derives from its
`stop_pct = 2` example. -/
theorem C5_counterexample :
    generate_trade_plan [c5NoDayLow] .long 2 = [⟨"", 100, 99.5, 101, 2⟩] ∧
    (99.5 : ℚ) ≠ 100 * (1 - 2 / 100) := by
  refine ⟨?_, by norm_num⟩
  simp [generate_trade_plan, planRow, entryCell, stopCell, pyFloat,
    c5NoDayLow, blankRow, Except.toOption, bind, Except.bind]
  norm_num [pyRound2, roundHalfEven]

/-- C5 (amended): for a long plan the stop is the day low of the row when
present (falling back to `entry * 0.995` when absent), and from the parsed
entry `e` and stop `s` the plan is computed on the unrounded values as
`target = e + (e - s) * rr`, with each monetary output rounded to two
decimal places (risk is not an emitted field); for entry 100, day low 98,
rr 2 this gives stop 98.00 and target 104.00. -/
theorem C5_long_plan_arithmetic (row : Row) (rr e s : ℚ)
    (he : pyFloat (entryCell row) = .ok e)
    (hs : pyFloat (stopCell .long row e) = .ok s) :
    planRow .long rr row = .ok
      { symbol := row.symbol.getD (row.name.getD "")
        entry := pyRound2 e
        stoploss := pyRound2 s
        target := pyRound2 (e + (e - s) * rr)
        risk_reward := rr } := by
  simp [planRow, he, hs, bind, Except.bind]

/-- C5 witness: the theorem applied to the spec example row (entry 100,
day low 98, rr 2) yields stop 98.00 and target 104.00. -/
theorem C5_witness :
    planRow .long 2 c5ExampleRow = .ok ⟨"", 100, 98, 104, 2⟩ := by
  have h := C5_long_plan_arithmetic c5ExampleRow 2 100 98 rfl rfl
  rw [h]
  simp [c5ExampleRow, blankRow]
  norm_num [pyRound2, roundHalfEven]

/-- C6 counterexample: the two short rows (entry 100, day high 102) and
(entry 200, day high 202) give stops 102 and 202; were the stop computed
as `entry * (1 + stop_pct/100)` for one caller-supplied `stop_pct`, the
stops would satisfy `102 * 200 = 202 * 100`, which fails — the stop comes
from the day high of the row, not from a stop-loss percentage. -/
theorem C6_counterexample :
    generate_trade_plan [c6ExampleRow, c6Row2] .short 2 =
      [⟨"", 100, 102, 96, 2⟩, ⟨"", 200, 202, 196, 2⟩] ∧
    (102 : ℚ) * 200 ≠ 202 * 100 := by
  refine ⟨?_, by norm_num⟩
  simp [generate_trade_plan, planRow, entryCell, stopCell, pyFloat,
    c6ExampleRow, c6Row2, blankRow, Except.toOption, bind, Except.bind]
  norm_num [pyRound2, roundHalfEven]

/-- C6 (amended): for a short plan the stop is the day high of the row when
present (falling back to `entry * 1.005` when absent), the risk is
`stop - entry`, and `target = entry - risk * rr` is computed on the
unrounded values with the monetary outputs rounded to two decimal places;
for entry 100, day high 102, rr 2 this gives risk 2 and target 96.00. -/
theorem C6_short_plan_arithmetic (row : Row) (rr e s : ℚ)
    (he : pyFloat (entryCell row) = .ok e)
    (hs : pyFloat (stopCell .short row e) = .ok s) :
    planRow .short rr row = .ok
      { symbol := row.symbol.getD (row.name.getD "")
        entry := pyRound2 e
        stoploss := pyRound2 s
        target := pyRound2 (e - (s - e) * rr)
        risk_reward := rr } := by
  simp [planRow, he, hs, bind, Except.bind]

/-- C6 witness: the theorem applied to the spec example row (entry 100,
day high 102, rr 2) yields stop 102.00 and target 96.00. -/
theorem C6_witness :
    planRow .short 2 c6ExampleRow = .ok ⟨"", 100, 102, 96, 2⟩ := by
  have h := C6_short_plan_arithmetic c6ExampleRow 2 100 102 rfl rfl
  rw [h]
  simp [c6ExampleRow, blankRow]
  norm_num [pyRound2, roundHalfEven]

/-- C8: an exception while processing one row of `generate_trade_plan`
does not abort the batch: a failing row can be removed without changing
the output (every other row is still processed), and when every row fails
the result is the empty list, not an error. -/
theorem C8_row_failure_isolated :
    (∀ (xs ys : List Row) (bad : Row) (dir : Direction) (rr : ℚ),
      planRow dir rr bad = .error () →
      generate_trade_plan (xs ++ bad :: ys) dir rr =
        generate_trade_plan (xs ++ ys) dir rr) ∧
    (∀ (df : List Row) (dir : Direction) (rr : ℚ),
      (∀ r ∈ df, planRow dir rr r = .error ()) →
      generate_trade_plan df dir rr = []) := by
  constructor
  · intro xs ys bad dir rr h
    simp [generate_trade_plan, List.filterMap_append, List.filterMap_cons, h,
      Except.toOption]
  · intro df dir rr h
    simp only [generate_trade_plan, List.filterMap_eq_nil_iff]
    intro r hr
    simp [h r hr, Except.toOption]

/-- C8 witness: with the unparseable row `c8Bad` between two good rows the
output equals the output without it, and a batch of failing rows alone
yields the empty result. -/
theorem C8_witness :
    generate_trade_plan [c8Good1, c8Bad, c8Good2] .long 2 =
      generate_trade_plan [c8Good1, c8Good2] .long 2 ∧
    generate_trade_plan [c8Bad] .long 2 = [] :=
  ⟨C8_row_failure_isolated.1 [c8Good1] [c8Good2] c8Bad .long 2 rfl,
   C8_row_failure_isolated.2 [c8Bad] .long 2
     (by intro r hr; rw [List.mem_singleton.mp hr]; rfl)⟩

/-- C9: with risk-reward ratio 0 every plan emitted by
`generate_trade_plan` has target equal to entry, for the long and the
short direction alike. -/
theorem C9_rr_zero_target_eq_entry (df : List Row) (dir : Direction)
    (p : TradePlan) (hp : p ∈ generate_trade_plan df dir 0) :
    p.target = p.entry := by
  simp only [generate_trade_plan, List.mem_filterMap] at hp
  obtain ⟨row, -, hrow⟩ := hp
  cases he : pyFloat (entryCell row) with
  | error u => simp [planRow, he, Except.toOption, bind, Except.bind] at hrow
  | ok e =>
    cases hs : pyFloat (stopCell dir row e) with
    | error u =>
      simp [planRow, he, hs, Except.toOption, bind, Except.bind] at hrow
    | ok s =>
      cases dir with
      | long =>
        simp only [planRow, he, hs, Except.toOption, bind, Except.bind] at hrow
        rw [← Option.some_inj.mp hrow]
        simp
      | short =>
        simp only [planRow, he, hs, Except.toOption, bind, Except.bind] at hrow
        rw [← Option.some_inj.mp hrow]
        simp

/-- C9 witness: the theorem applied to the concrete long run on `c9Row`
with rr 0, whose emitted plan has entry 100 and target 100. -/
theorem C9_witness : c9Plan.target = c9Plan.entry :=
  C9_rr_zero_target_eq_entry [c9Row] .long c9Plan
    (by
      have h : generate_trade_plan [c9Row] .long 0 = [c9Plan] := by
        simp [generate_trade_plan, planRow, entryCell, stopCell, pyFloat,
          c9Row, c9Plan, blankRow, Except.toOption, bind, Except.bind]
        norm_num [pyRound2, roundHalfEven]
      rw [h]
      exact List.Mem.head _)

/-- C10: on a row whose entry parses, a missing `dayLow` makes the long
stop default to `entry * 0.995` and a missing `dayHigh` makes the short
stop default to `entry * 1.005`, and in either case a plan is still
produced (the lookup never raises). -/
theorem C10_missing_day_extreme_defaults (row : Row) (rr e : ℚ)
    (he : pyFloat (entryCell row) = .ok e) :
    (row.dayLow = none →
      planRow .long rr row = .ok
        { symbol := row.symbol.getD (row.name.getD "")
          entry := pyRound2 e
          stoploss := pyRound2 (e * 0.995)
          target := pyRound2 (e + (e - e * 0.995) * rr)
          risk_reward := rr }) ∧
    (row.dayHigh = none →
      planRow .short rr row = .ok
        { symbol := row.symbol.getD (row.name.getD "")
          entry := pyRound2 e
          stoploss := pyRound2 (e * 1.005)
          target := pyRound2 (e - (e * 1.005 - e) * rr)
          risk_reward := rr }) := by
  constructor <;> intro h <;>
    simp [planRow, he, stopCell, h, pyFloat_num, bind, Except.bind]

/-- C10 witness: on `c10Row` (entry 100, both day extremes missing) the
long stop defaults to 99.50 and the short stop to 100.50, and both plans
are produced. -/
theorem C10_witness :
    planRow .long 2 c10Row = .ok ⟨"NODAY", 100, 99.5, 101, 2⟩ ∧
    planRow .short 2 c10Row = .ok ⟨"NODAY", 100, 100.5, 99, 2⟩ := by
  have h := C10_missing_day_extreme_defaults c10Row 2 100 rfl
  constructor
  · rw [h.1 rfl]
    simp [c10Row, blankRow]
    norm_num [pyRound2, roundHalfEven]
  · rw [h.2 rfl]
    simp [c10Row, blankRow]
    norm_num [pyRound2, roundHalfEven]

/-- C7: `get_top_movers` returns the gainers view sorted by `pChange`
descending and the losers view sorted ascending, each of length
`min n (number of rows with a computable pChange)`; every returned row
comes from the input and has a present `pChange`; a row whose `pChange`
cannot be computed (missing / NaN) is excluded from both views; and each
view is a true top-n: every retained row ranks at least as high as every
eligible row it displaces. -/
theorem C7_top_movers (n : ℕ) (df : List Row) :
    List.Sorted (fun a b => pct b ≤ pct a) (get_top_movers n df).1 ∧
    List.Sorted (fun a b => pct a ≤ pct b) (get_top_movers n df).2 ∧
    (∀ r : Row, (r ∈ (get_top_movers n df).1 ∨ r ∈ (get_top_movers n df).2) →
      r ∈ df ∧ r.pChange.isSome = true) ∧
    (∀ r : Row, r ∈ df → r.pChange = none →
      r ∉ (get_top_movers n df).1 ∧ r ∉ (get_top_movers n df).2) ∧
    (∀ a : Row, a ∈ (get_top_movers n df).1 → ∀ b : Row, b ∈ df →
      b.pChange.isSome = true → b ∉ (get_top_movers n df).1 →
      pct b ≤ pct a) ∧
    (∀ a : Row, a ∈ (get_top_movers n df).2 → ∀ b : Row, b ∈ df →
      b.pChange.isSome = true → b ∉ (get_top_movers n df).2 →
      pct a ≤ pct b) ∧
    (get_top_movers n df).1.length =
      min n (df.filter (fun r => r.pChange.isSome)).length ∧
    (get_top_movers n df).2.length =
      min n (df.filter (fun r => r.pChange.isSome)).length := by
  rw [get_top_movers_fst, get_top_movers_snd]
  refine ⟨?_, ?_, ?_, ?_, ?_, ?_, ?_, ?_⟩
  · exact List.Pairwise.imp (fun h => of_decide_eq_true h)
      (pairwise_take_mergeSort descLe_trans descLe_total _ n)
  · exact List.Pairwise.imp (fun h => of_decide_eq_true h)
      (pairwise_take_mergeSort ascLe_trans ascLe_total _ n)
  · intro r hr
    have hf : r ∈ df.filter (fun r => r.pChange.isSome) := by
      rcases hr with h | h
      · exact mem_of_mem_take_mergeSort h
      · exact mem_of_mem_take_mergeSort h
    exact List.mem_filter.mp hf
  · intro r hr hnone
    constructor <;> intro hmem
    · have := (List.mem_filter.mp (mem_of_mem_take_mergeSort hmem)).2
      rw [hnone] at this
      exact Bool.noConfusion this
    · have := (List.mem_filter.mp (mem_of_mem_take_mergeSort hmem)).2
      rw [hnone] at this
      exact Bool.noConfusion this
  · intro a ha b hb hsome hnb
    exact of_decide_eq_true (top_of_take_mergeSort descLe_trans descLe_total
      ha (List.mem_filter.mpr ⟨hb, hsome⟩) hnb)
  · intro a ha b hb hsome hnb
    exact of_decide_eq_true (top_of_take_mergeSort ascLe_trans ascLe_total
      ha (List.mem_filter.mpr ⟨hb, hsome⟩) hnb)
  · exact length_take_mergeSort _ _ n
  · exact length_take_mergeSort _ _ n

/-- C7 witness: the theorem applied to a one-row table whose only row has
a missing `pChange`: that row is excluded from the gainers view. -/
theorem C7_witness : blankRow ∉ (get_top_movers 3 [blankRow]).1 :=
  ((C7_top_movers 3 [blankRow]).2.2.2.1 blankRow (List.Mem.head _) rfl).1

end NseDashboard
